import Mathlib

/-!
Shallow embedding of `src/app.py` (AI Tarot Music app).

The program is a straight-line pipeline of HTTP calls: draw tarot cards,
request a reading from a chat model, extract music genres from the reading,
obtain a music-service token, and search tracks per genre.  We embed:

* `Json` — the JSON values exchanged with the services;
* `json_loads` — an executable model of Python's `json.loads` on strings
  (restricted to integer numbers and the common escape sequences; floats,
  `\u` escapes and the leading-zero restriction are not modelled — none of
  the verified properties depend on them);
* `PyError` / `Except` — Python exceptions raised by HTTP status checks,
  JSON decoding, and dict/list subscripting;
* `HttpResponse` — a network response; its body is given already parsed
  (`none` models a body that is not valid JSON, making `resp.json()` raise);
* the app's functions `build_prompt`, `get_tarot_reading`, `extract_genres`,
  `get_spotify_token`, `search_tracks`, and the Streamlit main block
  (`runPipeline`), with the network abstracted by response oracles.
-/

namespace TarotMusic

/-- JSON values (numbers restricted to integers). -/
inductive Json where
  | null
  | bool (b : Bool)
  | num (n : Int)
  | str (s : String)
  | arr (elems : List Json)
  | obj (fields : List (String × Json))

/-- Python exceptions that the embedded code can raise. -/
inductive PyError where
  | httpError (status : Nat)
  | jsonDecodeError
  | keyError
  | indexError
  | typeError
  | attributeError

/-- Model of Python's `', '.join(...)` / `str.join`. -/
def pyJoin (sep : String) : List String → String
  | [] => ""
  | [x] => x
  | x :: y :: xs => x ++ sep ++ pyJoin sep (y :: xs)

/-- Whitespace stripped by Python's `str.strip()`. -/
def isPyWs (c : Char) : Bool :=
  c = ' ' || c = '\t' || c = '\n' || c = '\r' || c = '\x0b' || c = '\x0c'

/-- Drop leading whitespace characters. -/
def dropWsChars : List Char → List Char
  | [] => []
  | c :: cs => if isPyWs c then dropWsChars cs else c :: cs

/-- Model of Python's `str.strip()`. -/
def pyStrip (s : String) : String :=
  String.mk ((dropWsChars ((dropWsChars s.data).reverse)).reverse)

/-! ## A model of Python's `json.loads` -/

/-- Whitespace accepted between JSON tokens. -/
def isJsonWs (c : Char) : Bool :=
  c = ' ' || c = '\t' || c = '\n' || c = '\r'

/-- Skip JSON whitespace. -/
def skipJWs : List Char → List Char
  | [] => []
  | c :: cs => if isJsonWs c then skipJWs cs else c :: cs

/-- JSON string escape sequences (without `\u`). -/
def escChar (c : Char) : Option Char :=
  if c = 'n' then some '\n'
  else if c = 't' then some '\t'
  else if c = 'r' then some '\r'
  else if c = 'b' then some (Char.ofNat 8)
  else if c = 'f' then some (Char.ofNat 12)
  else if c = '"' ∨ c = '\\' ∨ c = '/' then some c
  else none

/-- Parse the body of a JSON string after the opening quote; returns the
string's characters and the input after the closing quote. -/
def parseStrChars : List Char → Option (List Char × List Char)
  | [] => none
  | '"' :: rest => some ([], rest)
  | '\\' :: rest =>
    match rest with
    | [] => none
    | e :: rest2 =>
      match escChar e with
      | none => none
      | some c =>
        match parseStrChars rest2 with
        | none => none
        | some (s, r) => some (c :: s, r)
  | c :: rest =>
    match parseStrChars rest with
    | none => none
    | some (s, r) => some (c :: s, r)

/-- Take a maximal run of decimal digits. -/
def takeDigits : List Char → List Char × List Char
  | [] => ([], [])
  | c :: cs =>
    if c.isDigit then
      match takeDigits cs with
      | (ds, r) => (c :: ds, r)
    else ([], c :: cs)

/-- Numeric value of a digit run. -/
def digitsToNat (ds : List Char) : Nat :=
  ds.foldl (fun acc c => 10 * acc + (c.toNat - 48)) 0

mutual

/-- Parse one JSON value (fuelled recursion). -/
def parseValue : Nat → List Char → Option (Json × List Char)
  | 0, _ => none
  | fuel + 1, input =>
    match skipJWs input with
    | 'n' :: 'u' :: 'l' :: 'l' :: rest => some (.null, rest)
    | 't' :: 'r' :: 'u' :: 'e' :: rest => some (.bool true, rest)
    | 'f' :: 'a' :: 'l' :: 's' :: 'e' :: rest => some (.bool false, rest)
    | '"' :: rest =>
      match parseStrChars rest with
      | some (s, r) => some (.str (String.mk s), r)
      | none => none
    | '[' :: rest => parseArrayRest fuel rest
    | '\x7b' :: rest => parseObjRest fuel rest
    | '-' :: rest =>
      match takeDigits rest with
      | ([], _) => none
      | (ds, r) => some (.num (-(Int.ofNat (digitsToNat ds))), r)
    | c :: rest =>
      if c.isDigit then
        match takeDigits (c :: rest) with
        | (ds, r) => some (.num (Int.ofNat (digitsToNat ds)), r)
      else none
    | [] => none

/-- Parse the remainder of a JSON array after `[`. -/
def parseArrayRest : Nat → List Char → Option (Json × List Char)
  | 0, _ => none
  | fuel + 1, input =>
    match skipJWs input with
    | ']' :: rest => some (.arr [], rest)
    | other =>
      match parseElems fuel other with
      | some (vs, r) => some (.arr vs, r)
      | none => none

/-- Parse one or more comma-separated array elements up to `]`. -/
def parseElems : Nat → List Char → Option (List Json × List Char)
  | 0, _ => none
  | fuel + 1, input =>
    match parseValue fuel input with
    | none => none
    | some (v, r) =>
      match skipJWs r with
      | ',' :: r2 =>
        match parseElems fuel r2 with
        | some (vs, r3) => some (v :: vs, r3)
        | none => none
      | ']' :: r2 => some ([v], r2)
      | _ => none

/-- Parse the remainder of a JSON object after `{`. -/
def parseObjRest : Nat → List Char → Option (Json × List Char)
  | 0, _ => none
  | fuel + 1, input =>
    match skipJWs input with
    | '\x7d' :: rest => some (.obj [], rest)
    | other =>
      match parseMembers fuel other with
      | some (ms, r) => some (.obj ms, r)
      | none => none

/-- Parse one or more comma-separated object members up to `}`. -/
def parseMembers : Nat → List Char → Option (List (String × Json) × List Char)
  | 0, _ => none
  | fuel + 1, input =>
    match skipJWs input with
    | '"' :: rest =>
      match parseStrChars rest with
      | none => none
      | some (kcs, r) =>
        match skipJWs r with
        | ':' :: r2 =>
          match parseValue fuel r2 with
          | none => none
          | some (v, r3) =>
            match skipJWs r3 with
            | ',' :: r4 =>
              match parseMembers fuel r4 with
              | some (ms, r5) => some ((String.mk kcs, v) :: ms, r5)
              | none => none
            | '\x7d' :: r4 => some ([(String.mk kcs, v)], r4)
            | _ => none
        | _ => none
    | _ => none

end

/-- Model of Python's `json.loads`: parse a whole string as one JSON value,
rejecting trailing garbage; `none` models a raised `JSONDecodeError`. -/
def json_loads (s : String) : Option Json :=
  match parseValue (2 * s.length + 4) s.data with
  | some (v, rest) => if (skipJWs rest).isEmpty then some v else none
  | none => none

/-! ## Python subscripting and truthiness on JSON values -/

/-- First binding of a key in an object's field list. -/
def lookupField : List (String × Json) → String → Option Json
  | [], _ => none
  | (k, v) :: fs, key => if k = key then some v else lookupField fs key

/-- Python `d[key]`: `KeyError` when absent, `TypeError` when not a dict. -/
def Json.idx (j : Json) (key : String) : Except PyError Json :=
  match j with
  | .obj fields =>
    match lookupField fields key with
    | some v => .ok v
    | none => .error .keyError
  | _ => .error .typeError

/-- Python `xs[i]` on a list: `IndexError` out of range, `TypeError` when the
value is not a list. -/
def Json.nth (j : Json) (i : Nat) : Except PyError Json :=
  match j, i with
  | .arr (x :: _), 0 => .ok x
  | .arr (_ :: xs), i + 1 => Json.nth (.arr xs) i
  | .arr [], _ => .error .indexError
  | _, _ => .error .typeError

/-- Python `d.get(key, default)`: `AttributeError` when the receiver is not a
dict. -/
def Json.getD (j : Json) (key : String) (default : Json) : Except PyError Json :=
  match j with
  | .obj fields => .ok ((lookupField fields key).getD default)
  | _ => .error .attributeError

/-- Python truthiness (`if not tracks:`) of a JSON value. -/
def jsonFalsy : Json → Bool
  | .null => true
  | .bool b => !b
  | .num n => n == 0
  | .str s => s == ""
  | .arr xs => xs.isEmpty
  | .obj fs => fs.isEmpty

/-! ## HTTP layer -/

/-- A network response.  The body is given already parsed: `none` models a
body that is not valid JSON, on which `resp.json()` raises. -/
structure HttpResponse where
  status : Nat
  body : Option Json

/-- Python `requests.Response.raise_for_status`: raises `HTTPError` exactly
for status codes 400–599. -/
def raise_for_status (resp : HttpResponse) : Except PyError Unit :=
  if 400 ≤ resp.status ∧ resp.status < 600 then .error (.httpError resp.status)
  else .ok ()

/-- Python `resp.json()`. -/
def respJson (resp : HttpResponse) : Except PyError Json :=
  match resp.body with
  | some j => .ok j
  | none => .error .jsonDecodeError

/-! ## The app's helper functions (src/app.py) -/

/-- `build_prompt` (src/app.py lines 36–54): the f-string template with the
card names comma-joined and the context label interpolated. -/
def build_prompt (cards : List String) (context : String) : String :=
  "\nYou are a reflective assistant combining tarot symbolism and music psychology.\nYou do not predict the future. You provide grounded, introspective interpretations.\n\nTarot cards drawn:\n"
    ++ pyJoin ", " cards
    ++ "\n\nContext:\n"
    ++ context
    ++ "\n\nTasks:\n1. Interpret the tarot reading\n2. Identify emotional themes\n3. Recommend 3 music genres or styles\n4. Explain why each recommendation fits\n\nRespond clearly and thoughtfully.\n"

/-- `draw_tarot_cards` (lines 28–32): `raise_for_status` then
`resp.json()["cards"]`. -/
def draw_tarot_cards (resp : HttpResponse) : Except PyError Json :=
  match raise_for_status resp with
  | .error e => .error e
  | .ok _ =>
    match respJson resp with
    | .error e => .error e
    | .ok j => j.idx "cards"

/-- `get_tarot_reading` (lines 57–72): `raise_for_status` then
`resp.json()["choices"][0]["message"]["content"]` (the content is returned
as-is, whatever JSON value it is). -/
def get_tarot_reading (resp : HttpResponse) : Except PyError Json :=
  match raise_for_status resp with
  | .error e => .error e
  | .ok _ =>
    match respJson resp with
    | .error e => .error e
    | .ok j =>
      match j.idx "choices" with
      | .error e => .error e
      | .ok choices =>
        match choices.nth 0 with
        | .error e => .error e
        | .ok c0 =>
          match c0.idx "message" with
          | .error e => .error e
          | .ok msg => msg.idx "content"

/-- The chat-completion navigation of `extract_genres` (lines 96–98):
status check, body decode, `["choices"][0]["message"]["content"]`, and the
`.strip()` receiver check (`AttributeError` when the content is not a
string). -/
def groqContent (resp : HttpResponse) : Except PyError String :=
  match get_tarot_reading resp with
  | .error e => .error e
  | .ok content =>
    match content with
    | .str s => .ok s
    | _ => .error .attributeError

/-- Line 98–99: `raw = content.strip()` then `return json.loads(raw)`. -/
def loadsStripped (content : String) : Except PyError Json :=
  match json_loads (pyStrip content) with
  | some v => .ok v
  | none => .error .jsonDecodeError

/-- `extract_genres` (lines 75–99): navigate to the model's content string,
strip it, and `json.loads` it, returning whatever value parses (the
`list[str]` annotation is not enforced).  `reading_text` only feeds the
request payload, which the response oracle abstracts. -/
def extract_genres (reading_text : String) (resp : HttpResponse) : Except PyError Json :=
  match groqContent resp with
  | .error e => .error e
  | .ok content => loadsStripped content

/-- `get_spotify_token` (lines 102–113): `raise_for_status` then
`resp.json()["access_token"]`. -/
def get_spotify_token (resp : HttpResponse) : Except PyError Json :=
  match raise_for_status resp with
  | .error e => .error e
  | .ok _ =>
    match respJson resp with
    | .error e => .error e
    | .ok j => j.idx "access_token"

/-! ## `search_tracks` (lines 116–142) -/

/-- One collected track entry (the dict literal at lines 134–141). -/
structure Track where
  id : Json
  name : Json
  artist : Json
  genre : String
  url : Json

/-- One search request issued to the music service (its query string and
`limit` parameter; the bearer-token header is carried unchanged and is
abstracted away by the response oracle). -/
structure SearchReq where
  q : String
  limit : Nat

/-- Line 125 / 130: `resp.json().get("tracks", {}).get("items", [])`.
Note there is no `raise_for_status` here — the HTTP status is never
inspected. -/
def fetchItems (resp : HttpResponse) : Except PyError Json :=
  match respJson resp with
  | .error e => .error e
  | .ok j =>
    match j.getD "tracks" (.obj []) with
    | .error e => .error e
    | .ok tr => tr.getD "items" (.arr [])

/-- Lines 133–141: build the track dict from one item `t`. -/
def convertTrack (genre : String) (t : Json) : Except PyError Track :=
  match t.idx "id" with
  | .error e => .error e
  | .ok id =>
    match t.idx "name" with
    | .error e => .error e
    | .ok name =>
      match t.idx "artists" with
      | .error e => .error e
      | .ok artists =>
        match artists.nth 0 with
        | .error e => .error e
        | .ok a0 =>
          match a0.idx "name" with
          | .error e => .error e
          | .ok artist =>
            match t.idx "external_urls" with
            | .error e => .error e
            | .ok urls =>
              match urls.idx "spotify" with
              | .error e => .error e
              | .ok url => .ok ⟨id, name, artist, genre, url⟩

/-- The `for t in tracks:` append loop over a list of items. -/
def convertItems (genre : String) : List Json → Except PyError (List Track)
  | [] => .ok []
  | t :: ts =>
    match convertTrack genre t with
    | .error e => .error e
    | .ok tr =>
      match convertItems genre ts with
      | .error e => .error e
      | .ok trs => .ok (tr :: trs)

/-- `for t in tracks:` — iterating a non-list raises `TypeError`. -/
def convertList (genre : String) (tracks : Json) : Except PyError (List Track) :=
  match tracks with
  | .arr ts => convertItems genre ts
  | _ => .error .typeError

/-- The body of the `for genre in genres:` loop (lines 122–141): filtered
query `genre:<g>`, fallback to the plain query `<g>` when the first item
list is falsy, then conversion of every returned item.  Also records the
requests issued. -/
def genreStep (f : String → HttpResponse) (limit : Nat) (g : String) :
    Except PyError (List Track) × List SearchReq :=
  match fetchItems (f ("genre:" ++ g)) with
  | .error e => (.error e, [⟨"genre:" ++ g, limit⟩])
  | .ok tracks1 =>
    if jsonFalsy tracks1 then
      match fetchItems (f g) with
      | .error e => (.error e, [⟨"genre:" ++ g, limit⟩, ⟨g, limit⟩])
      | .ok tracks2 => (convertList g tracks2, [⟨"genre:" ++ g, limit⟩, ⟨g, limit⟩])
    else
      (convertList g tracks1, [⟨"genre:" ++ g, limit⟩])

/-- `search_tracks` (lines 116–142): iterate the genres, accumulating all
converted tracks in order; an exception aborts the whole call.  The second
component is the list of search requests issued, in order. -/
def search_tracks (genres : List String) (f : String → HttpResponse) (limit : Nat) :
    Except PyError (List Track) × List SearchReq :=
  match genres with
  | [] => (.ok [], [])
  | g :: gs =>
    match genreStep f limit g with
    | (.error e, lg) => (.error e, lg)
    | (.ok ts1, lg) =>
      match search_tracks gs f limit with
      | (.error e, lg2) => (.error e, lg ++ lg2)
      | (.ok ts2, lg2) => (.ok (ts1 ++ ts2), lg ++ lg2)

/-- The Python default value of `search_tracks`' `limit` parameter, also the
value the main block's call uses. -/
def searchDefaultLimit : Nat := 3

/-! ## The Streamlit main block (lines 175–252) -/

/-- The three environment secrets (`os.getenv` results; `none` = unset). -/
structure Env where
  GROQ_API_KEY : Option String
  SPOTIFY_CLIENT_ID : Option String
  SPOTIFY_CLIENT_SECRET : Option String

/-- Python falsiness of an `os.getenv` result (`if not GROQ_API_KEY:`):
unset, or set to the empty string. -/
def envFalsy : Option String → Bool
  | none => true
  | some s => s == ""

/-- Lines 178–184: the `missing` list, in the order the checks run. -/
def missingKeys (env : Env) : List String :=
  (if envFalsy env.GROQ_API_KEY then ["GROQ_API_KEY"] else [])
    ++ (if envFalsy env.SPOTIFY_CLIENT_ID then ["SPOTIFY_CLIENT_ID"] else [])
    ++ (if envFalsy env.SPOTIFY_CLIENT_SECRET then ["SPOTIFY_CLIENT_SECRET"] else [])

/-- Line 186: the `st.error` message for missing configuration. -/
def configErrorMessage (missing : List String) : String :=
  "Missing environment variables: " ++ pyJoin ", " missing
    ++ ". Add them to your `.env` file."

/-- Line 197: `card_names = [c["name"] for c in drawn_cards]` (outside any
`try`, so its exceptions are uncaught). -/
def cardNames (drawn_cards : Json) : Except PyError (List Json) :=
  match drawn_cards with
  | .arr cs => cardNamesList cs
  | _ => .error .typeError
where
  cardNamesList : List Json → Except PyError (List Json)
    | [] => .ok []
    | c :: cs =>
      match c.idx "name" with
      | .error e => .error e
      | .ok v =>
        match cardNamesList cs with
        | .error e => .error e
        | .ok vs => .ok (v :: vs)

/-- Lines 202–207: the card-display loop's field accesses (`name_short`,
`name`, `meaning_up`, `meaning_rev`), also outside any `try`. -/
def displayCard (c : Json) : Except PyError Unit :=
  match c.idx "name_short" with
  | .error e => .error e
  | .ok _ =>
    match c.idx "name" with
    | .error e => .error e
    | .ok _ =>
      match c.idx "meaning_up" with
      | .error e => .error e
      | .ok _ =>
        match c.idx "meaning_rev" with
        | .error e => .error e
        | .ok _ => .ok ()

/-- The display loop over all drawn cards. -/
def displayCards (drawn_cards : Json) : Except PyError Unit :=
  match drawn_cards with
  | .arr cs => displayList cs
  | _ => .error .typeError
where
  displayList : List Json → Except PyError Unit
    | [] => .ok ()
    | c :: cs =>
      match displayCard c with
      | .error e => .error e
      | .ok _ => displayList cs

/-- A JSON value as a list of Python strings, as required by
`", ".join(genres)` (line 229) and the per-genre iteration; `none` models
the `TypeError` that `str.join` raises otherwise. -/
def asStringList (j : Json) : Option (List String) :=
  match j with
  | .arr xs => allStrings xs
  | _ => none
where
  allStrings : List Json → Option (List String)
    | [] => some []
    | .str s :: xs =>
      match allStrings xs with
      | some ss => some (s :: ss)
      | none => none
    | _ => none

/-- The reading stage (lines 210–215): `build_prompt` raises `TypeError`
inside `get_tarot_reading` when a card name is not a string (the
`', '.join` at line 42); otherwise the exchange is a single request whose
response the oracle supplies. -/
def get_tarot_reading_stage (card_names : List Json) (context : String)
    (resp : HttpResponse) : Except PyError Json :=
  match asStringList (.arr card_names) with
  | none => .error .typeError
  | some strs =>
    let _prompt := build_prompt strs context
    get_tarot_reading resp

/-- The extraction stage (lines 221–226): string concatenation of the
prompt with a non-string reading raises `TypeError` inside
`extract_genres`. -/
def extract_genres_stage (reading : Json) (resp : HttpResponse) : Except PyError Json :=
  match reading with
  | .str s => extract_genres s resp
  | _ => .error .typeError

/-- Responses of the external services for one run: one per single-shot
call, and one per search query string (the music-service search endpoint is
assumed to answer a given query string deterministically within a run). -/
structure Oracles where
  tarot : HttpResponse
  reading : HttpResponse
  extraction : HttpResponse
  token : HttpResponse
  search : String → HttpResponse

/-- The observable outcome of one button-triggered run. -/
inductive Outcome where
  /-- Line 186: `st.error(...)` for missing configuration, then `st.stop()`. -/
  | configError (msg : String)
  /-- An `st.error` whose message starts with the given stage prefix,
  then `st.stop()`. -/
  | stageError (stage : String)
  /-- An exception raised outside every `try`/`except` (crashes the run
  without a stage-named message). -/
  | uncaught (e : PyError)
  /-- The final track display (lines 240–252); the empty list renders the
  "No tracks found" warning. -/
  | done (tracks : List Track)

/-- The main block (lines 175–252): key validation, card draw, card-name
comprehension, card display, reading, genre extraction, genre join, token,
track search.  The second component counts the network requests issued. -/
def runPipeline (env : Env) (context : String) (o : Oracles) : Outcome × Nat :=
  if (missingKeys env).isEmpty then
    match draw_tarot_cards o.tarot with
    | .error _ => (.stageError "Error fetching tarot cards", 1)
    | .ok drawn_cards =>
      match cardNames drawn_cards with
      | .error e => (.uncaught e, 1)
      | .ok card_names =>
        match displayCards drawn_cards with
        | .error e => (.uncaught e, 1)
        | .ok _ =>
          match get_tarot_reading_stage card_names context o.reading with
          | .error _ => (.stageError "Error getting tarot reading", 2)
          | .ok reading =>
            match extract_genres_stage reading o.extraction with
            | .error _ => (.stageError "Error extracting genres", 3)
            | .ok genres =>
              match asStringList genres with
              | none => (.uncaught .typeError, 3)
              | some genreList =>
                match get_spotify_token o.token with
                | .error _ => (.stageError "Error searching Spotify", 4)
                | .ok _token =>
                  match search_tracks genreList o.search searchDefaultLimit with
                  | (.error _, log) => (.stageError "Error searching Spotify", 4 + log.length)
                  | (.ok tracks, log) => (.done tracks, 4 + log.length)
  else (.configError (configErrorMessage (missingKeys env)), 0)

/-! ## Concrete fixtures used by witnesses and counterexamples -/

/-- An environment with all three secrets present. -/
def okEnv : Env := ⟨some "k", some "i", some "s"⟩

/-- A well-formed drawn card. -/
def sunCard : Json :=
  .obj [("name", .str "The Sun"), ("name_short", .str "ar19"),
        ("meaning_up", .str "joy"), ("meaning_rev", .str "delay")]

/-- A successful card-draw response with one card. -/
def tarotRespOK : HttpResponse :=
  ⟨200, some (.obj [("cards", .arr [sunCard])])⟩

/-- A successful chat-completion response whose message content is the given
string. -/
def groqResp (content : String) : HttpResponse :=
  ⟨200, some (.obj [("choices",
    .arr [.obj [("message", .obj [("content", .str content)])]])])⟩

/-- A successful token response. -/
def tokenRespOK : HttpResponse :=
  ⟨200, some (.obj [("access_token", .str "tok123")])⟩

/-- A music-service search response: HTTP 401 with the service's JSON error
body (no `tracks` field). -/
def searchResp401 : HttpResponse :=
  ⟨401, some (.obj [("error", .obj [("status", .num 401),
    ("message", .str "The access token expired")])])⟩

/-- A search response carrying the given track items. -/
def searchRespItems (items : List Json) : HttpResponse :=
  ⟨200, some (.obj [("tracks", .obj [("items", .arr items)])])⟩

/-- A well-formed track item with the given id string. -/
def mkItem (s : String) : Json :=
  .obj [("id", .str s), ("name", .str ("song " ++ s)),
        ("artists", .arr [.obj [("name", .str ("artist " ++ s))]]),
        ("external_urls", .obj [("spotify", .str ("url " ++ s))])]

/-- The track entry `mkItem s` converts to for genre `g`. -/
def mkTrack (g s : String) : Track :=
  ⟨.str s, .str ("song " ++ s), .str ("artist " ++ s), g, .str ("url " ++ s)⟩

/-- Oracles for a fully successful run. -/
def oraclesOK : Oracles :=
  ⟨tarotRespOK, groqResp "A reading.", groqResp "[\"rock\"]", tokenRespOK,
    fun _ => searchRespItems [mkItem "a"]⟩

/-- Oracles whose search endpoint always answers HTTP 401 with a JSON error
body; everything else succeeds. -/
def oraclesBadSearch : Oracles :=
  ⟨tarotRespOK, groqResp "A reading.", groqResp "[\"rock\"]", tokenRespOK,
    fun _ => searchResp401⟩

/-- Oracles whose card-draw endpoint fails with HTTP 500. -/
def badTarotOracles : Oracles :=
  ⟨⟨500, none⟩, groqResp "A reading.", groqResp "[\"rock\"]", tokenRespOK,
    fun _ => searchRespItems []⟩

/-- A search oracle where the filtered query for "jazz" finds nothing and
the plain-text fallback finds one item. -/
def fallbackOracle : String → HttpResponse := fun q =>
  if q = "jazz" then searchRespItems [mkItem "j"] else searchRespItems []

/-- A search oracle returning the same single item for every query. -/
def dupOracle : String → HttpResponse := fun _ => searchRespItems [mkItem "d"]

/-- A search oracle returning four items although the request's `limit`
parameter asks for three. -/
def overLimitOracle : String → HttpResponse := fun _ =>
  searchRespItems [mkItem "a", mkItem "b", mkItem "c", mkItem "d"]

/-- A track item whose `artists` list is empty. -/
def emptyArtistsItem : Json :=
  .obj [("id", .str "x"), ("name", .str "y"), ("artists", .arr []),
        ("external_urls", .obj [("spotify", .str "u")])]

/-- A track item missing the `id` field. -/
def missingIdItem : Json := .obj [("name", .str "y")]

/-- Oracles whose search endpoint returns a track item with an empty
`artists` list. -/
def oraclesC9 : Oracles :=
  ⟨tarotRespOK, groqResp "A reading.", groqResp "[\"rock\"]", tokenRespOK,
    fun _ => searchRespItems [emptyArtistsItem]⟩

/-- An environment with the chat-service key unset. -/
def missingGroqEnv : Env := ⟨none, some "i", some "s"⟩

/-! ## Helper lemmas -/

/-- The tracks a successful `genreStep` yields (and `[]` on failure). -/
def genreTracksD (f : String → HttpResponse) (limit : Nat) (g : String) : List Track :=
  match genreStep f limit g with
  | (.ok ts, _) => ts
  | (.error _, _) => []

/-- Concatenation of the per-genre results, in genre order. -/
def flatTracks (f : String → HttpResponse) (limit : Nat) : List String → List Track
  | [] => []
  | g :: gs => genreTracksD f limit g ++ flatTracks f limit gs

theorem flatTracks_cons (f : String → HttpResponse) (limit : Nat) (g : String)
    (gs : List String) :
    flatTracks f limit (g :: gs) = genreTracksD f limit g ++ flatTracks f limit gs := rfl

theorem flatTracks_append (f : String → HttpResponse) (limit : Nat)
    (gs1 gs2 : List String) :
    flatTracks f limit (gs1 ++ gs2) = flatTracks f limit gs1 ++ flatTracks f limit gs2 := by
  induction gs1 with
  | nil => simp [flatTracks]
  | cons g gs ih => simp [flatTracks, ih]

theorem convertTrack_genre (g : String) (t : Json) (tr : Track)
    (h : convertTrack g t = .ok tr) : tr.genre = g := by
  unfold convertTrack at h
  repeat' split at h
  all_goals simp_all
  subst h
  rfl

theorem convertItems_genre (g : String) :
    ∀ (js : List Json) (ts : List Track), convertItems g js = .ok ts →
      ∀ tr ∈ ts, tr.genre = g := by
  intro js
  induction js with
  | nil =>
    intro ts h tr htr
    simp [convertItems] at h
    subst h
    cases htr
  | cons t js ih =>
    intro ts h tr htr
    unfold convertItems at h
    cases hc : convertTrack g t with
    | error e => rw [hc] at h; simp at h
    | ok tr0 =>
      rw [hc] at h
      cases hr : convertItems g js with
      | error e => rw [hr] at h; simp at h
      | ok ts0 =>
        rw [hr] at h
        simp at h
        subst h
        rcases List.mem_cons.mp htr with rfl | hm
        · exact convertTrack_genre g t tr hc
        · exact ih ts0 hr tr hm

theorem convertItems_length (g : String) :
    ∀ (js : List Json) (ts : List Track), convertItems g js = .ok ts →
      ts.length = js.length := by
  intro js
  induction js with
  | nil =>
    intro ts h
    simp [convertItems] at h
    subst h
    rfl
  | cons t js ih =>
    intro ts h
    unfold convertItems at h
    cases hc : convertTrack g t with
    | error e => rw [hc] at h; simp at h
    | ok tr0 =>
      rw [hc] at h
      cases hr : convertItems g js with
      | error e => rw [hr] at h; simp at h
      | ok ts0 =>
        rw [hr] at h
        simp at h
        subst h
        simp [ih ts0 hr]

theorem search_tracks_ok_flat :
    ∀ (gs : List String) (f : String → HttpResponse) (limit : Nat)
      (ts : List Track) (log : List SearchReq),
      search_tracks gs f limit = (.ok ts, log) → ts = flatTracks f limit gs := by
  intro gs
  induction gs with
  | nil =>
    intro f limit ts log h
    simp [search_tracks] at h
    simp [flatTracks, h.1.symm]
  | cons g gs ih =>
    intro f limit ts log h
    unfold search_tracks at h
    cases hstep : genreStep f limit g with
    | mk res lg =>
      rw [hstep] at h
      cases res with
      | error e => simp at h
      | ok ts1 =>
        cases hrec : search_tracks gs f limit with
        | mk res2 lg2 =>
          rw [hrec] at h
          cases res2 with
          | error e => simp at h
          | ok ts2 =>
            simp at h
            have h1 : genreTracksD f limit g = ts1 := by
              unfold genreTracksD
              rw [hstep]
            have h2 : ts2 = flatTracks f limit gs := ih f limit ts2 lg2 hrec
            simp [flatTracks, h1, ← h2, h.1.symm]

theorem genreStep_log_limit (f : String → HttpResponse) (limit : Nat) (g : String)
    (res : Except PyError (List Track)) (log : List SearchReq)
    (hsl : genreStep f limit g = (res, log)) :
    ∀ r ∈ log, r.limit = limit := by
  intro r hr
  unfold genreStep at hsl
  repeat' split at hsl
  all_goals (injection hsl with h1 h2; subst h2; simp at hr)
  all_goals (first
    | (subst hr; rfl)
    | (rcases hr with rfl | rfl <;> rfl))

theorem search_tracks_log_limit :
    ∀ (gs : List String) (f : String → HttpResponse) (limit : Nat)
      (res : Except PyError (List Track)) (log : List SearchReq),
      search_tracks gs f limit = (res, log) →
      ∀ r ∈ log, r.limit = limit := by
  intro gs
  induction gs with
  | nil =>
    intro f limit res log hsl r hr
    simp [search_tracks] at hsl
    rw [hsl.2] at hr
    cases hr
  | cons g gs ih =>
    intro f limit res log hsl r hr
    unfold search_tracks at hsl
    cases hstep : genreStep f limit g with
    | mk res1 lg =>
      rw [hstep] at hsl
      have hlg : ∀ x ∈ lg, x.limit = limit :=
        genreStep_log_limit f limit g res1 lg hstep
      cases res1 with
      | error e =>
        injection hsl with h1 h2
        subst h2
        exact hlg r hr
      | ok ts1 =>
        cases hrec : search_tracks gs f limit with
        | mk res2 lg2 =>
          rw [hrec] at hsl
          have hlg2 : ∀ x ∈ lg2, x.limit = limit :=
            ih f limit res2 lg2 hrec
          cases res2 with
          | error e =>
            injection hsl with h1 h2
            subst h2
            rcases List.mem_append.mp hr with h1 | h2
            · exact hlg r h1
            · exact hlg2 r h2
          | ok ts2 =>
            injection hsl with h1 h2
            subst h2
            rcases List.mem_append.mp hr with h1 | h2
            · exact hlg r h1
            · exact hlg2 r h2

theorem pyJoin_infix (sep k : String) :
    ∀ (m : List String), k ∈ m → ∃ p q, pyJoin sep m = p ++ k ++ q := by
  intro m
  induction m with
  | nil => intro h; cases h
  | cons a t ih =>
    intro h
    rcases List.mem_cons.mp h with rfl | hm
    · cases t with
      | nil =>
        exact ⟨"", "", by simp [pyJoin, String.append_empty, String.empty_append]⟩
      | cons b t2 =>
        refine ⟨"", sep ++ pyJoin sep (b :: t2), ?_⟩
        simp [pyJoin, String.empty_append, String.append_assoc]
    · cases t with
      | nil => cases hm
      | cons b t2 =>
        obtain ⟨p, q, hpq⟩ := ih hm
        refine ⟨a ++ sep ++ p, q, ?_⟩
        show a ++ sep ++ pyJoin sep (b :: t2) = a ++ sep ++ p ++ k ++ q
        rw [hpq]
        simp [String.append_assoc]

theorem fetchItems_status_blind (r1 r2 : HttpResponse) (h : r1.body = r2.body) :
    fetchItems r1 = fetchItems r2 := by
  unfold fetchItems respJson
  rw [h]

theorem convertList_genre (g : String) (tracks : Json) (ts : List Track)
    (h : convertList g tracks = .ok ts) : ∀ tr ∈ ts, tr.genre = g := by
  unfold convertList at h
  split at h
  · exact convertItems_genre g _ ts h
  · simp at h

theorem genreStep_genre (f : String → HttpResponse) (limit : Nat) (g : String)
    (ts1 : List Track) (lg : List SearchReq)
    (h : genreStep f limit g = (.ok ts1, lg)) : ∀ tr ∈ ts1, tr.genre = g := by
  unfold genreStep at h
  repeat' split at h
  all_goals (injection h with h1 h2)
  all_goals first
    | (exact absurd h1 (by simp))
    | (exact convertList_genre g _ ts1 h1)

theorem raise_for_status_error (resp : HttpResponse) (h1 : 400 ≤ resp.status)
    (h2 : resp.status < 600) :
    raise_for_status resp = .error (.httpError resp.status) := by
  unfold raise_for_status
  rw [if_pos ⟨h1, h2⟩]

/-! ## Claims -/

/-- C7: Prompt construction is a pure deterministic function of the
card-name list and the context label: equal inputs always yield the
identical formatted string, and the output embeds the card names
comma-joined together with the context label. -/
theorem C7_build_prompt_pure (cards cards' : List String) (context context' : String)
    (hc : cards = cards') (hx : context = context') :
    build_prompt cards context = build_prompt cards' context' ∧
      ∃ s1 s2 s3, build_prompt cards context =
        s1 ++ pyJoin ", " cards ++ s2 ++ context ++ s3 := by
  subst hc
  subst hx
  exact ⟨rfl, _, _, _, rfl⟩

/-- Witness for C7 at concrete inputs. -/
theorem C7_witness :
    build_prompt ["The Sun", "The Moon"] "Career" =
        build_prompt ["The Sun", "The Moon"] "Career" ∧
      ∃ s1 s2 s3, build_prompt ["The Sun", "The Moon"] "Career" =
        s1 ++ pyJoin ", " ["The Sun", "The Moon"] ++ s2 ++ "Career" ++ s3 :=
  C7_build_prompt_pure ["The Sun", "The Moon"] ["The Sun", "The Moon"]
    "Career" "Career" rfl rfl

/-- C8: `search_tracks` on an empty genre list returns the empty track list
and issues no search requests. -/
theorem C8_empty_genres (f : String → HttpResponse) (limit : Nat) :
    search_tracks [] f limit = (.ok [], []) := rfl

/-- C4: with the model's extraction response content equal to the JSON
array `["a","b","c"]`, `extract_genres` returns exactly that list; and for
every content string that is not valid JSON it raises a parse failure
rather than returning a partial or guessed list. -/
theorem C4_extract_genres_parse (t : String) (resp : HttpResponse) :
    (groqContent resp = .ok "[\"a\",\"b\",\"c\"]" →
      extract_genres t resp = .ok (.arr [.str "a", .str "b", .str "c"])) ∧
    (∀ c, groqContent resp = .ok c → json_loads (pyStrip c) = none →
      extract_genres t resp = .error .jsonDecodeError) := by
  constructor
  · intro h
    unfold extract_genres
    rw [h]
    rfl
  · intro c h hn
    unfold extract_genres
    rw [h]
    show loadsStripped c = Except.error PyError.jsonDecodeError
    unfold loadsStripped
    rw [hn]

/-- Witness for C4 at a concrete response. -/
theorem C4_witness :
    groqContent (groqResp "[\"a\",\"b\",\"c\"]") = .ok "[\"a\",\"b\",\"c\"]" ∧
      extract_genres "reading" (groqResp "[\"a\",\"b\",\"c\"]") =
        .ok (.arr [.str "a", .str "b", .str "c"]) :=
  ⟨rfl, (C4_extract_genres_parse "reading" (groqResp "[\"a\",\"b\",\"c\"]")).1 rfl⟩

/-- C10: `extract_genres` performs no shape validation on the parsed value:
whenever the response content parses as JSON, the parsed value is returned
unchanged (whatever shape it has), and it raises exactly when the content
is not valid JSON. -/
theorem C10_no_shape_validation (t : String) (resp : HttpResponse) (c : String)
    (h : groqContent resp = .ok c) :
    (∀ v, json_loads (pyStrip c) = some v → extract_genres t resp = .ok v) ∧
      (json_loads (pyStrip c) = none →
        extract_genres t resp = .error .jsonDecodeError) := by
  constructor
  · intro v hv
    unfold extract_genres
    rw [h]
    show loadsStripped c = Except.ok v
    unfold loadsStripped
    rw [hv]
  · intro hn
    unfold extract_genres
    rw [h]
    show loadsStripped c = Except.error PyError.jsonDecodeError
    unfold loadsStripped
    rw [hn]

/-- Witness for C10: a JSON number (not an array of strings) is returned
unchanged. -/
theorem C10_witness :
    groqContent (groqResp "42") = .ok "42" ∧
      extract_genres "reading" (groqResp "42") = .ok (.num 42) :=
  ⟨rfl, (C10_no_shape_validation "reading" (groqResp "42") "42" rfl).1 (.num 42) rfl⟩

/-- C9: `search_tracks` assumes well-shaped track items: an item with an
empty `artists` list raises `IndexError`, an item with a missing field
raises `KeyError`, and in the full pipeline the raised exception aborts the
run at the Spotify stage. -/
theorem C9_malformed_item_raises :
    (search_tracks ["rock"] (fun _ => searchRespItems [emptyArtistsItem]) 3).1 =
        .error .indexError ∧
      (search_tracks ["rock"] (fun _ => searchRespItems [missingIdItem]) 3).1 =
        .error .keyError ∧
      runPipeline okEnv "Career" oraclesC9 =
        (.stageError "Error searching Spotify", 5) :=
  ⟨rfl, rfl, rfl⟩

/-- C2: for any genre in the input list whose genre-filtered query returns
an empty item list and whose unfiltered fallback query returns exactly one
item, a successful `search_tracks` result contains exactly the one track
converted from that item for that genre, in its position between the other
genres' results. -/
theorem C2_fallback_single (f : String → HttpResponse) (limit : Nat) (g : String)
    (gs1 gs2 : List String) (item : Json) (tr : Track) (ts : List Track)
    (log : List SearchReq)
    (h1 : fetchItems (f ("genre:" ++ g)) = .ok (.arr []))
    (h2 : fetchItems (f g) = .ok (.arr [item]))
    (h3 : convertTrack g item = .ok tr)
    (h4 : search_tracks (gs1 ++ g :: gs2) f limit = (.ok ts, log)) :
    ts = flatTracks f limit gs1 ++ [tr] ++ flatTracks f limit gs2 ∧
      tr.genre = g := by
  have hstep : genreStep f limit g =
      (.ok [tr], [⟨"genre:" ++ g, limit⟩, ⟨g, limit⟩]) := by
    simp [genreStep, h1, h2, jsonFalsy, convertList, convertItems, h3]
  have hflat := search_tracks_ok_flat (gs1 ++ g :: gs2) f limit ts log h4
  have hD : genreTracksD f limit g = [tr] := by
    unfold genreTracksD
    rw [hstep]
  refine ⟨?_, convertTrack_genre g item tr h3⟩
  rw [hflat, flatTracks_append, flatTracks_cons, hD]
  simp

/-- Witness for C2 at a concrete oracle. -/
theorem C2_witness :
    [mkTrack "jazz" "j"] =
        flatTracks fallbackOracle 3 [] ++ [mkTrack "jazz" "j"] ++
          flatTracks fallbackOracle 3 [] ∧
      (mkTrack "jazz" "j").genre = "jazz" :=
  C2_fallback_single fallbackOracle 3 "jazz" [] [] (mkItem "j")
    (mkTrack "jazz" "j") [mkTrack "jazz" "j"]
    [⟨"genre:jazz", 3⟩, ⟨"jazz", 3⟩] rfl rfl rfl rfl

/-- C5: a successful `search_tracks` result is the flat concatenation of
the per-genre results in genre-iteration order (no deduplication), and
every entry produced for a genre carries that genre string in its `genre`
field. -/
theorem C5_flat_ordered_tagged (gs : List String) (f : String → HttpResponse)
    (limit : Nat) (ts : List Track) (log : List SearchReq)
    (h : search_tracks gs f limit = (.ok ts, log)) :
    ts = flatTracks f limit gs ∧
      ∀ g ∈ gs, ∀ tr ∈ genreTracksD f limit g, tr.genre = g := by
  refine ⟨search_tracks_ok_flat gs f limit ts log h, ?_⟩
  intro g _hg tr htr
  unfold genreTracksD at htr
  cases hstep : genreStep f limit g with
  | mk res lg =>
    rw [hstep] at htr
    cases res with
    | error e => cases htr
    | ok ts1 => exact genreStep_genre f limit g ts1 lg hstep tr htr

/-- Witness for C5: the same item found under two genres is kept twice
(no deduplication), in genre order, each tagged with its genre. -/
theorem C5_witness :
    [mkTrack "rock" "d", mkTrack "jazz" "d"] =
        flatTracks dupOracle 3 ["rock", "jazz"] ∧
      ∀ g ∈ ["rock", "jazz"], ∀ tr ∈ genreTracksD dupOracle 3 g,
        tr.genre = g :=
  C5_flat_ordered_tagged ["rock", "jazz"] dupOracle 3
    [mkTrack "rock" "d", mkTrack "jazz" "d"]
    [⟨"genre:rock", 3⟩, ⟨"genre:jazz", 3⟩] rfl

/-- C6 counterexample: with `limit = 3`, a response carrying four items
makes `search_tracks` collect all four tracks for the genre — the claimed
per-genre cap is not enforced client-side. -/
theorem C6_counterexample :
    (search_tracks ["rock"] overLimitOracle 3).1 =
        .ok [mkTrack "rock" "a", mkTrack "rock" "b",
             mkTrack "rock" "c", mkTrack "rock" "d"] ∧
      3 < [mkTrack "rock" "a", mkTrack "rock" "b",
           mkTrack "rock" "c", mkTrack "rock" "d"].length :=
  ⟨rfl, by decide⟩

/-- C6 amended: `search_tracks` forwards the per-genre limit (default 3)
only as the request's `limit` parameter — every issued request carries it —
and performs no client-side truncation: a successful per-genre step whose
(non-empty) filtered item list has length n collects exactly n tracks,
however large n is. -/
theorem C6_limit_is_request_param_only (gs : List String)
    (f : String → HttpResponse) (limit : Nat)
    (res : Except PyError (List Track)) (log : List SearchReq)
    (hsl : search_tracks gs f limit = (res, log)) :
    (∀ r ∈ log, r.limit = limit) ∧
      (∀ g ts1 lg js, genreStep f limit g = (.ok ts1, lg) →
        fetchItems (f ("genre:" ++ g)) = .ok (.arr js) → js ≠ [] →
        ts1.length = js.length) ∧
      searchDefaultLimit = 3 := by
  refine ⟨search_tracks_log_limit gs f limit res log hsl, ?_, rfl⟩
  intro g ts1 lg js hstep hfetch hne
  have hfalsy : jsonFalsy (.arr js) = false := by
    cases js with
    | nil => exact absurd rfl hne
    | cons a as => rfl
  have hstep2 : genreStep f limit g =
      (convertList g (.arr js), [⟨"genre:" ++ g, limit⟩]) := by
    simp [genreStep, hfetch, hfalsy]
  rw [hstep2] at hstep
  injection hstep with hA hB
  exact convertItems_length g js ts1 hA

/-- Witness for C6's amended statement at a concrete oracle. -/
theorem C6_witness :
    (∀ r ∈ [(⟨"genre:rock", 3⟩ : SearchReq)], r.limit = 3) ∧
      (∀ g ts1 lg js, genreStep overLimitOracle 3 g = (.ok ts1, lg) →
        fetchItems (overLimitOracle ("genre:" ++ g)) = .ok (.arr js) →
        js ≠ [] → ts1.length = js.length) ∧
      searchDefaultLimit = 3 :=
  C6_limit_is_request_param_only ["rock"] overLimitOracle 3
    (.ok [mkTrack "rock" "a", mkTrack "rock" "b",
          mkTrack "rock" "c", mkTrack "rock" "d"])
    [⟨"genre:rock", 3⟩] rfl

/-- C3: when any of the three secret configuration values is absent
(unset or empty), triggering the action aborts with the configuration
error message, the message lists every missing value by name (each missing
name occurs verbatim in it, and a name is listed exactly when its value is
absent), and zero network calls are made. -/
theorem C3_missing_keys_abort (env : Env) (context : String) (o : Oracles)
    (h : envFalsy env.GROQ_API_KEY = true ∨ envFalsy env.SPOTIFY_CLIENT_ID = true ∨
      envFalsy env.SPOTIFY_CLIENT_SECRET = true) :
    runPipeline env context o =
        (.configError (configErrorMessage (missingKeys env)), 0) ∧
      (∀ k ∈ missingKeys env, ∃ p q,
        configErrorMessage (missingKeys env) = p ++ k ++ q) ∧
      (envFalsy env.GROQ_API_KEY = true ↔ "GROQ_API_KEY" ∈ missingKeys env) ∧
      (envFalsy env.SPOTIFY_CLIENT_ID = true ↔
        "SPOTIFY_CLIENT_ID" ∈ missingKeys env) ∧
      (envFalsy env.SPOTIFY_CLIENT_SECRET = true ↔
        "SPOTIFY_CLIENT_SECRET" ∈ missingKeys env) := by
  have hne : (missingKeys env).isEmpty = false := by
    unfold missingKeys
    rcases h with h | h | h <;> rw [h] <;> simp
  refine ⟨?_, ?_, ?_, ?_, ?_⟩
  · unfold runPipeline
    rw [hne]
    simp
  · intro k hk
    obtain ⟨p, q, hpq⟩ := pyJoin_infix ", " k (missingKeys env) hk
    refine ⟨"Missing environment variables: " ++ p,
      q ++ ". Add them to your `.env` file.", ?_⟩
    unfold configErrorMessage
    rw [hpq]
    simp [String.append_assoc]
  · unfold missingKeys
    by_cases h1 : envFalsy env.GROQ_API_KEY = true <;>
      by_cases h2 : envFalsy env.SPOTIFY_CLIENT_ID = true <;>
      by_cases h3 : envFalsy env.SPOTIFY_CLIENT_SECRET = true <;>
      simp [h1, h2, h3]
  · unfold missingKeys
    by_cases h1 : envFalsy env.GROQ_API_KEY = true <;>
      by_cases h2 : envFalsy env.SPOTIFY_CLIENT_ID = true <;>
      by_cases h3 : envFalsy env.SPOTIFY_CLIENT_SECRET = true <;>
      simp [h1, h2, h3]
  · unfold missingKeys
    by_cases h1 : envFalsy env.GROQ_API_KEY = true <;>
      by_cases h2 : envFalsy env.SPOTIFY_CLIENT_ID = true <;>
      by_cases h3 : envFalsy env.SPOTIFY_CLIENT_SECRET = true <;>
      simp [h1, h2, h3]

/-- Witness for C3 with the chat-service key unset. -/
theorem C3_witness :
    runPipeline missingGroqEnv "Career" oraclesOK =
        (.configError (configErrorMessage (missingKeys missingGroqEnv)), 0) ∧
      (∀ k ∈ missingKeys missingGroqEnv, ∃ p q,
        configErrorMessage (missingKeys missingGroqEnv) = p ++ k ++ q) ∧
      (envFalsy missingGroqEnv.GROQ_API_KEY = true ↔
        "GROQ_API_KEY" ∈ missingKeys missingGroqEnv) ∧
      (envFalsy missingGroqEnv.SPOTIFY_CLIENT_ID = true ↔
        "SPOTIFY_CLIENT_ID" ∈ missingKeys missingGroqEnv) ∧
      (envFalsy missingGroqEnv.SPOTIFY_CLIENT_SECRET = true ↔
        "SPOTIFY_CLIENT_SECRET" ∈ missingKeys missingGroqEnv) :=
  C3_missing_keys_abort missingGroqEnv "Career" oraclesOK (Or.inl rfl)

/-- C1 counterexample: with every earlier stage succeeding and the
music-service search answering HTTP 401 with a JSON error body, the run
ends in the plain track display with an empty list (`.done []`, rendered as
the "No tracks found" warning) after 6 requests — the error status from the
track search is silently treated as an empty result, not surfaced as a
Spotify-stage error. -/
theorem C1_counterexample :
    runPipeline okEnv "Career" oraclesBadSearch = (.done [], 6) ∧
      400 ≤ (oraclesBadSearch.search "genre:rock").status ∧
      Outcome.done [] ≠ Outcome.stageError "Error searching Spotify" :=
  ⟨rfl, by decide, fun h => Outcome.noConfusion h⟩

/-- C1 amended: a failing HTTP status in any of the four try-wrapped stages
(card draw, reading, extraction, token acquisition) is caught, surfaced as
an error naming that stage, and halts the run with no further network
calls; the two track-search GETs, however, never inspect the HTTP status —
`fetchItems` depends only on the response body. -/
theorem C1_wrapped_stage_errors (env : Env) (context : String) (o : Oracles) :
    (missingKeys env = [] → 400 ≤ o.tarot.status → o.tarot.status < 600 →
      runPipeline env context o = (.stageError "Error fetching tarot cards", 1)) ∧
    (∀ cards names, missingKeys env = [] →
      draw_tarot_cards o.tarot = .ok cards →
      cardNames cards = .ok names →
      displayCards cards = .ok () →
      400 ≤ o.reading.status → o.reading.status < 600 →
      runPipeline env context o = (.stageError "Error getting tarot reading", 2)) ∧
    (∀ cards names reading, missingKeys env = [] →
      draw_tarot_cards o.tarot = .ok cards →
      cardNames cards = .ok names →
      displayCards cards = .ok () →
      get_tarot_reading_stage names context o.reading = .ok reading →
      400 ≤ o.extraction.status → o.extraction.status < 600 →
      runPipeline env context o = (.stageError "Error extracting genres", 3)) ∧
    (∀ cards names reading genres gl, missingKeys env = [] →
      draw_tarot_cards o.tarot = .ok cards →
      cardNames cards = .ok names →
      displayCards cards = .ok () →
      get_tarot_reading_stage names context o.reading = .ok reading →
      extract_genres_stage reading o.extraction = .ok genres →
      asStringList genres = some gl →
      400 ≤ o.token.status → o.token.status < 600 →
      runPipeline env context o = (.stageError "Error searching Spotify", 4)) ∧
    (∀ r1 r2 : HttpResponse, r1.body = r2.body → fetchItems r1 = fetchItems r2) := by
  refine ⟨?_, ?_, ?_, ?_, fetchItems_status_blind⟩
  · intro hm hA hB
    have hdraw : draw_tarot_cards o.tarot = .error (.httpError o.tarot.status) := by
      unfold draw_tarot_cards
      rw [raise_for_status_error o.tarot hA hB]
    simp [runPipeline, hm, hdraw]
  · intro cards names hm hdraw hnames hdisp hA hB
    have hread : get_tarot_reading o.reading =
        .error (.httpError o.reading.status) := by
      unfold get_tarot_reading
      rw [raise_for_status_error o.reading hA hB]
    cases hS : asStringList (.arr names) with
    | none =>
      have hst : get_tarot_reading_stage names context o.reading =
          .error .typeError := by
        unfold get_tarot_reading_stage
        rw [hS]
      simp [runPipeline, hm, hdraw, hnames, hdisp, hst]
    | some strs =>
      have hst : get_tarot_reading_stage names context o.reading =
          .error (.httpError o.reading.status) := by
        unfold get_tarot_reading_stage
        rw [hS]
        exact hread
      simp [runPipeline, hm, hdraw, hnames, hdisp, hst]
  · intro cards names reading hm hdraw hnames hdisp hreadok hA hB
    have hex : ∀ s, extract_genres s o.extraction =
        .error (.httpError o.extraction.status) := by
      intro s
      unfold extract_genres groqContent get_tarot_reading
      rw [raise_for_status_error o.extraction hA hB]
    have hst : ∃ e, extract_genres_stage reading o.extraction = .error e := by
      cases reading with
      | str s => exact ⟨_, hex s⟩
      | null => exact ⟨_, rfl⟩
      | bool b => exact ⟨_, rfl⟩
      | num n => exact ⟨_, rfl⟩
      | arr xs => exact ⟨_, rfl⟩
      | obj fs => exact ⟨_, rfl⟩
    obtain ⟨e, hst⟩ := hst
    simp [runPipeline, hm, hdraw, hnames, hdisp, hreadok, hst]
  · intro cards names reading genres gl hm hdraw hnames hdisp hreadok hexok hgl hA hB
    have htok : get_spotify_token o.token =
        .error (.httpError o.token.status) := by
      unfold get_spotify_token
      rw [raise_for_status_error o.token hA hB]
    simp [runPipeline, hm, hdraw, hnames, hdisp, hreadok, hexok, hgl, htok]

/-- Witness for C1's amended statement: a 500 from the card-draw endpoint
is surfaced as the tarot-stage error after exactly one request. -/
theorem C1_witness :
    runPipeline okEnv "Career" badTarotOracles =
      (.stageError "Error fetching tarot cards", 1) :=
  (C1_wrapped_stage_errors okEnv "Career" badTarotOracles).1 rfl
    (by decide) (by decide)

end TarotMusic
